import Mathlib

/-! Verification of cmd/echo/main.go of cry999/http.

The program is one request handler (a switch on the last segment of the URL
path) and a main function that serves it until an interrupt arrives.

* Part 1 embeds the handler over a model of http.ResponseWriter.
* Part 2 embeds main as a step function over an explicit schedule of the
  two goroutines and of the events of the runtime.

The calls into the Go standard library follow the documented behaviour of the
library: path.Base, textproto.CanonicalMIMEHeaderKey, http.Header,
http.ResponseWriter, http.Error, http.NotFound, signal.Notify, channels,
sync.WaitGroup, http.Server.  What the handler prints on standard output
(fmt.Printf) does not reach the response and is left out.
-/

namespace Echo

/-! ## Part 1, library: strings, path.Base, http.Header -/

/-- Go strings.Contains: sub occurs in s as a contiguous run. -/
def contains (s sub : String) : Prop := sub.data <:+: s.data

instance (s sub : String) : Decidable (contains s sub) := by
  unfold contains
  infer_instance

/-- The loop of path.Base that removes the trailing slashes. -/
def stripTrailingSlashes (p : List Char) : List Char :=
  (p.reverse.dropWhile (fun c => c == '/')).reverse

/-- The part of p after its last slash (all of p when it has none). -/
def afterLastSlash (p : List Char) : List Char :=
  (p.reverse.takeWhile (fun c => c != '/')).reverse

/-- Go path.Base: the last element of the path; "." for the empty path and
"/" for a path of slashes only. -/
def Base (path : String) : String :=
  if path = "" then "."
  else
    let p := afterLastSlash (stripTrailingSlashes path.data)
    if p = [] then "/" else String.mk p

/-- Go textproto validHeaderFieldByte: the token characters of RFC 7230. -/
def validHeaderFieldByte (c : Char) : Bool :=
  c.isAlphanum || "!#$%&*+-.^_|~".data.contains c
    || c == Char.ofNat 39 || c == Char.ofNat 96

/-- The rewriting loop of canonicalMIMEHeaderKey: upper case at the start and
after a hyphen, lower case elsewhere. -/
def canonLoop : Bool → List Char → List Char
  | _, [] => []
  | upper, c :: cs =>
    let c1 := if upper then c.toUpper else c.toLower
    c1 :: canonLoop (c1 == '-') cs

/-- Go textproto.CanonicalMIMEHeaderKey: a key with a byte that is not a token
character is returned unchanged. -/
def CanonicalMIMEHeaderKey (s : String) : String :=
  if s.data.all validHeaderFieldByte then String.mk (canonLoop true s.data) else s

/-- Go http.Header, a map from key to the list of its values, as an
association list with at most one entry for a key. -/
abbrev Header := List (String × List String)

/-- The map index expression h[k] of Go: no canonicalisation of k. -/
def Header.index (h : Header) (k : String) : Option (List String) :=
  (h.find? (fun e => e.1 == k)).map (fun e => e.2)

/-- The map assignment h[k] = vs. -/
def Header.assign (h : Header) (k : String) (vs : List String) : Header :=
  (k, vs) :: h.filter (fun e => e.1 != k)

/-- Go Header.Add: appends value to the values of the canonical key. -/
def Header.Add (h : Header) (key value : String) : Header :=
  let k := CanonicalMIMEHeaderKey key
  Header.assign h k ((Header.index h k).getD [] ++ [value])

/-- Go Header.Set: the canonical key gets the single value. -/
def Header.Set (h : Header) (key value : String) : Header :=
  Header.assign h (CanonicalMIMEHeaderKey key) [value]

/-- Go Header.Del: removes the canonical key. -/
def Header.Del (h : Header) (key : String) : Header :=
  h.filter (fun e => e.1 != CanonicalMIMEHeaderKey key)

/-- Go Header.Values: all values of the canonical key. -/
def Header.Values (h : Header) (key : String) : List String :=
  (Header.index h (CanonicalMIMEHeaderKey key)).getD []

/-! ## Part 1, library: http.ResponseWriter, http.Error, http.NotFound -/

/-- The state of an http.ResponseWriter: the header map the handler edits,
whether the status line has been committed, the committed status, the header
map as it was at that moment (later edits are not sent), and the body. -/
structure ResponseWriter where
  header : Header
  wroteHeader : Bool
  status : Nat
  sent : Header
  body : String
deriving DecidableEq

/-- A writer nothing has been written to. -/
def newWriter : ResponseWriter :=
  { header := [], wroteHeader := false, status := 0, sent := [], body := "" }

/-- Go net/http bodyAllowedForStatus. -/
def bodyAllowedForStatus (status : Nat) : Bool :=
  if 100 ≤ status ∧ status ≤ 199 then false
  else if status = 204 then false
  else if status = 304 then false
  else true

/-- The call w.Header().Add(key, value). -/
def ResponseWriter.AddHeader (w : ResponseWriter) (key value : String) : ResponseWriter :=
  { w with header := Header.Add w.header key value }

/-- Go ResponseWriter.WriteHeader: only the first call commits a status. -/
def ResponseWriter.WriteHeader (w : ResponseWriter) (code : Nat) : ResponseWriter :=
  if w.wroteHeader then w
  else { w with wroteHeader := true, status := code, sent := w.header }

/-- Go ResponseWriter.Write (also fmt.Fprintf with a format without verbs):
the first write commits status 200 when none is committed; the bytes are
appended when the status allows a body. -/
def ResponseWriter.Write (w : ResponseWriter) (s : String) : ResponseWriter :=
  let w1 := w.WriteHeader 200
  if bodyAllowedForStatus w1.status then { w1 with body := w1.body ++ s } else w1

/-- Go http.Error. -/
def Error (w : ResponseWriter) (error : String) (code : Nat) : ResponseWriter :=
  let h := Header.Del w.header "Content-Length"
  let h := Header.Set h "Content-Type" "text/plain; charset=utf-8"
  let h := Header.Set h "X-Content-Type-Options" "nosniff"
  let w1 := ({ w with header := h } : ResponseWriter).WriteHeader code
  w1.Write (error ++ "\n")

/-- Go http.NotFound. -/
def NotFound (w : ResponseWriter) : ResponseWriter :=
  Error w "404 page not found" 404

/-- What the client is answered once the handler has returned: a handler that
never wrote gets status 200. -/
structure Response where
  status : Nat
  header : Header
  body : String
deriving DecidableEq

/-- The response of a finished writer. -/
def ResponseWriter.result (w : ResponseWriter) : Response :=
  let w1 := w.WriteHeader 200
  { status := w1.status, header := w1.sent, body := w1.body }

/-! ## Part 1: the handler of main.go -/

/-- Go http.StatusMultipleChoices. -/
def StatusMultipleChoices : Nat := 300

/-- Go http.StatusMovedPermanently. -/
def StatusMovedPermanently : Nat := 301

/-- Go http.StatusFound. -/
def StatusFound : Nat := 302

/-- Go http.StatusSeeOther. -/
def StatusSeeOther : Nat := 303

/-- Go http.StatusTemporaryRedirect. -/
def StatusTemporaryRedirect : Nat := 307

/-- Go http.StatusPermanentRedirect. -/
def StatusPermanentRedirect : Nat := 308

/-- Go http.StatusUnauthorized. -/
def StatusUnauthorized : Nat := 401

/-- Go http.StatusInternalServerError. -/
def StatusInternalServerError : Nat := 500

/-- The constant index of main.go, lines 18 to 32. -/
def index : String :=
  "\n<!DOCTYPE html>\n<html>\n<head>\n</head>\n<body>\n" ++
  "\t<form action=\"/index.html\" method=\"POST\" enctype=\"multipart/form-data\">\n" ++
  "\t\t<input name=\"title\">\n" ++
  "\t\t<input name=\"author\">\n" ++
  "\t\t<input name=\"attachment-file\" type=\"file\">\n" ++
  "\t\t<input type=\"submit\">\n" ++
  "\t</form>\n</body>\n</html>\n"

/-- The constant redirectForm of main.go, lines 34 to 45. -/
def redirectForm : String :=
  "\n<!DOCTYPE html>\n<html>\n<head></head>\n<body>\n" ++
  "\t<form action=\"redirected-location\" method=\"POST\">\n" ++
  "\t\t<input type=\"hidden\" name=\"data\" value=\"message\"/>\n" ++
  "\t\t<input type=\"submit\" value=\"Continue\" />\n" ++
  "\t</form>\n</body>\n</html>\n"

/-- The challenge of line 101. -/
def digestChallenge : String :=
  "Digest realm=\"Secret Zone\", " ++
  "nonce=\"TgLc25U2BQA=f510a2780473e18e6587be8-2c2e78fe2b04afd\", " ++
  "algorithm=MD5, qop=\"auth\""

/-- The default body of line 122. -/
def helloWorld : String := "<html><body>Hello, World!</body></html>\n"

/-- What of a request the handler reads: r.URL.Path, r.Header, and the result
of httputil.DumpRequest(r, true), the dump or the text of its error. -/
structure Request where
  Path : String
  Header : Header
  dump : Except String String

/-- How a call t.Execute(w, nil) ended.  On an error the template package may
already have written to w: written is none when no Write was made, and the
text w accepted otherwise. -/
inductive ExecuteResult where
  | done
  | failed (written : Option String)
deriving DecidableEq

/-- The outcomes of the html/template calls, by template name: the error of
Parse on a text (none when it parses), and how Execute ends. -/
structure Templates where
  Parse : String → String → Option String
  Execute : String → ExecuteResult

/-- Lines 60 to 69 and 71 to 80: parse the page, execute it on w, answer the
generic 500 on either error.  A successful Execute of a text without actions
writes the text. -/
def renderTemplate (t : Templates) (name text : String) (w : ResponseWriter) :
    ResponseWriter :=
  match t.Parse name text with
  | some _ => Error w "internal server error" StatusInternalServerError
  | none =>
    match t.Execute name with
    | .done => w.Write text
    | .failed none => Error w "internal server error" StatusInternalServerError
    | .failed (some s) => Error (w.Write s) "internal server error" StatusInternalServerError

/-- How a case of the switch ends: with a return statement, or by leaving the
switch towards line 122. -/
inductive Flow where
  | returned (w : ResponseWriter)
  | leftSwitch (w : ResponseWriter)

/-- The switch of lines 55 to 121. -/
def switchBase (t : Templates) (r : Request) (w : ResponseWriter) : Flow :=
  let key := Base r.Path
  if key = "favicon.ico" then .returned (NotFound w)
  else if key = "index.html" then .returned (renderTemplate t "index.html" index w)
  else if key = "redirect-form" then
    .returned (renderTemplate t "redirect-form.html" redirectForm w)
  else if key = "welcome" then
    let w1 := w.AddHeader "Set-Cookie" "VISIT=TRUE"
    if (Header.index r.Header "Cookie").isSome then
      .leftSwitch (w1.Write "<html><body>Thank you, comeback!</body></html>\n")
    else
      .leftSwitch (w1.Write "<html><body>Thank you, you're first visit!</body></html>\n")
  else if key = "digest" then
    if (Header.index r.Header "Authorization").isSome then
      .leftSwitch (w.Write "<html><body>secret page</body></html>\n")
    else
      .leftSwitch ((w.AddHeader "WWW-Authenticate" digestChallenge).WriteHeader
        StatusUnauthorized)
  else if key = "redirect-300" then
    .leftSwitch ((w.AddHeader "Location" "/redirected-location").WriteHeader
      StatusMultipleChoices)
  else if key = "redirect-301" then
    .leftSwitch ((w.AddHeader "Location" "/redirected-location").WriteHeader
      StatusMovedPermanently)
  else if key = "redirect-302" then
    .leftSwitch ((w.AddHeader "Location" "/redirected-location").WriteHeader StatusFound)
  else if key = "redirect-303" then
    .leftSwitch ((w.AddHeader "Location" "/redirected-location").WriteHeader StatusSeeOther)
  else if key = "redirect-307" then
    .leftSwitch ((w.AddHeader "Location" "/redirected-location").WriteHeader
      StatusPermanentRedirect)
  else .leftSwitch w

/-- The function handler of main.go, lines 47 to 123. -/
def handler (t : Templates) (r : Request) (w : ResponseWriter) : ResponseWriter :=
  match r.dump with
  | .error err => Error w err StatusInternalServerError
  | .ok _ =>
    match switchBase t r w with
    | .returned w1 => w1
    | .leftSwitch w1 => w1.Write helloWorld

/-- The response to a request: the handler run on a fresh writer. -/
def respond (t : Templates) (r : Request) : Response :=
  (handler t r newWriter).result

/-- Templates whose calls all succeed. -/
def goodTemplates : Templates :=
  { Parse := fun _ _ => none, Execute := fun _ => .done }

/-- The ten keys of the switch. -/
def tableKeys : List String :=
  ["favicon.ico", "index.html", "redirect-form", "welcome", "digest",
   "redirect-300", "redirect-301", "redirect-302", "redirect-303", "redirect-307"]

/-- A template call fails: Parse returns an error, or Execute does. -/
def templateFails (t : Templates) (name text : String) : Prop :=
  t.Parse name text ≠ none ∨ t.Execute name ≠ .done

/-- A request for /digest with an Authorization header of no meaning. -/
def digestAuthRequest : Request :=
  { Path := "/digest", Header := [("Authorization", ["anything"])], dump := .ok "" }

/-- A request for /digest without an Authorization header. -/
def digestAnonRequest : Request :=
  { Path := "/digest", Header := [("Accept", ["*/*"])], dump := .ok "" }

/-- A request for /welcome carrying a cookie. -/
def welcomeBackRequest : Request :=
  { Path := "/welcome", Header := [("Cookie", ["VISIT=TRUE"])], dump := .ok "" }

/-- A request for /favicon.ico. -/
def faviconRequest : Request :=
  { Path := "/favicon.ico", Header := [], dump := .ok "" }

/-- A request for /Welcome, which is none of the keys. -/
def capitalWelcomeRequest : Request :=
  { Path := "/Welcome", Header := [("Cookie", ["VISIT=TRUE"])], dump := .ok "" }

/-- A request for /unknown whose dump fails. -/
def undumpableRequest : Request :=
  { Path := "/unknown", Header := [], dump := .error "unexpected EOF" }

/-- A request for /index.html. -/
def indexRequest : Request :=
  { Path := "/index.html", Header := [], dump := .ok "" }

/-- Templates whose Execute fails before it writes. -/
def failingTemplates : Templates :=
  { Parse := fun _ _ => none, Execute := fun _ => .failed none }

/-! ## Part 2: the function main of main.go

The two goroutines and the runtime take turns; a schedule is the list of
who moves.  Every statement of main and of the goroutine of lines 139 to 148
is one step.  A call that blocks is a step that is not enabled.  The log
holds the messages of the log package without their time stamps. -/

/-- An error returned by httpServer.ListenAndServe: http.ErrServerClosed, or
another error with its text. -/
inductive ServeError where
  | closed
  | other (msg : String)
deriving DecidableEq

/-- The channel sigCh: its capacity, the number of values queued in its
buffer (all of them os.Interrupt) and whether it has been closed. -/
structure Chan where
  cap : Nat
  buf : Nat
  closed : Bool
deriving DecidableEq

/-- Go make(chan os.Signal, cap); make(chan os.Signal) is makeChan 0. -/
def makeChan (cap : Nat) : Chan := { cap := cap, buf := 0, closed := false }

/-- Where the goroutine of main stands: before line 126; past the make and
the deferred close of lines 126 and 127; past signal.Notify and the deferred
signal.Stop of lines 129 and 130; past lines 132 to 135; past wg.Add and the
go statement of lines 137 to 148; inside ListenAndServe of line 150; past it
with its error; past wg.Wait of line 153; past the log line of 154; past the
deferred signal.Stop; past the deferred close. -/
inductive MainPc where
  | start
  | madeChan
  | notified
  | configured
  | spawned
  | serving
  | served (err : ServeError)
  | waited
  | logged
  | stopped
  | closed
deriving DecidableEq

/-- Where the goroutine of lines 139 to 148 stands: not created; created, at
the receive of line 141; blocked in that receive; past it with ok; inside
Shutdown of line 143; past it with its error; past the log line of 146; past
the deferred wg.Done. -/
inductive CoordPc where
  | notStarted
  | started
  | parked
  | received (ok : Bool)
  | inShutdown
  | shutdownReturned (err : Option String)
  | logged
  | done
deriving DecidableEq

/-- The state of the process.  The fields main to exit are the program: the
two positions, sigCh (none before line 126), whether sigCh is registered with
the signal package, whether httpServer is shutting down, the counter of wg,
the log, and the exit code once the process has ended.  The other fields
record history: the calls of Shutdown, the interrupts the runtime delivered
and those it discarded, the ok of the receive of line 141, and the errors
ListenAndServe and Shutdown returned. -/
structure State where
  main : MainPc
  coord : CoordPc
  sigCh : Option Chan
  registered : Bool
  shuttingDown : Bool
  wg : Nat
  log : List String
  exit : Option Nat
  shutdownCalls : Nat
  interrupts : Nat
  dropped : Nat
  recv : Option Bool
  serveResult : Option ServeError
  shutdownResult : Option (Option String)
deriving DecidableEq

/-- The process before the first statement of main. -/
def init : State :=
  { main := .start, coord := .notStarted, sigCh := none, registered := false,
    shuttingDown := false, wg := 0, log := [], exit := none, shutdownCalls := 0,
    interrupts := 0, dropped := 0, recv := none, serveResult := none,
    shutdownResult := none }

/-- Who moves: main, the goroutine of lines 139 to 148, the runtime
delivering an os.Interrupt to the registered channels, ListenAndServe
returning, Shutdown returning.  The interrupt is an event at every moment,
also before signal.Notify and after the deferred signal.Stop. -/
inductive Event where
  | main
  | coord
  | interrupt
  | serveReturns (err : ServeError)
  | shutdownReturns (err : Option String)
deriving DecidableEq

/-- The next statement of main.  ListenAndServe blocks; wg.Wait blocks while
the counter is not zero; log.Fatalf logs and ends the process with code 1;
the return of main runs the deferred signal.Stop, then the deferred close,
and ends the process with code 0. -/
def mainStep (s : State) : Option State :=
  match s.main with
  | .start => some { s with main := .madeChan, sigCh := some (makeChan 0) }
  | .madeChan => some { s with main := .notified, registered := true }
  | .notified =>
    some { s with main := .configured, log := s.log ++ ["start http listening :18888"] }
  | .configured => some { s with main := .spawned, wg := s.wg + 1, coord := .started }
  | .spawned => some { s with main := .serving }
  | .serving => none
  | .served (.other msg) =>
    some { s with log := s.log ++ ["unexpected shutdown: " ++ msg], exit := some 1 }
  | .served .closed => if s.wg = 0 then some { s with main := .waited } else none
  | .waited => some { s with main := .logged, log := s.log ++ ["Bye!"] }
  | .logged => some { s with main := .stopped, registered := false }
  | .stopped =>
    some { s with main := .closed,
                  sigCh := s.sigCh.map (fun ch => { ch with closed := true }) }
  | .closed => some { s with exit := some 0 }

/-- The deferred wg.Done of line 140; a counter below zero is a panic, which
ends the process with code 2. -/
def wgDone (s : State) : State :=
  if s.wg = 0 then { s with exit := some 2 } else { s with coord := .done, wg := s.wg - 1 }

/-- The next statement of the goroutine of lines 139 to 148.  The receive of
line 141 takes a queued value, or returns ok = false on a closed channel, or
blocks; Shutdown is called only when ok is true. -/
def coordStep (s : State) : Option State :=
  match s.coord with
  | .notStarted => none
  | .started =>
    match s.sigCh with
    | none => none
    | some ch =>
      if 0 < ch.buf then
        some { s with coord := .received true, recv := some true,
                      sigCh := some { ch with buf := ch.buf - 1 } }
      else if ch.closed then some { s with coord := .received false, recv := some false }
      else some { s with coord := .parked }
  | .parked =>
    match s.sigCh with
    | none => none
    | some ch =>
      if ch.closed then some { s with coord := .received false, recv := some false }
      else none
  | .received true =>
    some { s with coord := .inShutdown, shutdownCalls := s.shutdownCalls + 1,
                  shuttingDown := true }
  | .received false => some (wgDone s)
  | .inShutdown => none
  | .shutdownReturned (some msg) =>
    some { s with log := s.log ++ ["shutdown error: " ++ msg], exit := some 1 }
  | .shutdownReturned none => some { s with coord := .logged, log := s.log ++ ["shutdown"] }
  | .logged => some (wgDone s)
  | .done => none

/-- The signal package delivering an os.Interrupt to sigCh with a send that
does not block: a send on a closed channel is a panic; a receiver blocked in
its receive is handed the value; otherwise the value is queued when the
buffer has room; otherwise it is discarded. -/
def deliver (s : State) : Option State :=
  match s.sigCh with
  | none => none
  | some ch =>
    if ch.closed then some { s with interrupts := s.interrupts + 1, exit := some 2 }
    else if s.coord = .parked then
      some { s with interrupts := s.interrupts + 1, coord := .received true,
                    recv := some true }
    else if ch.buf < ch.cap then
      some { s with interrupts := s.interrupts + 1,
                    sigCh := some { ch with buf := ch.buf + 1 } }
    else some { s with interrupts := s.interrupts + 1, dropped := s.dropped + 1 }

/-- The status of a process that the default action of SIGINT has ended.
The program returns no exit code then; 130 (128 + 2) is what a shell reports,
and it stands here for that end. -/
def interruptStatus : Nat := 130

/-- One step of the process; none when the event is not enabled.  Nothing
moves once the process has ended.  An interrupt is delivered to sigCh while
sigCh is registered; before signal.Notify and after the deferred signal.Stop
the default action of the signal ends the process, with no further statement
run.  ListenAndServe returns http.ErrServerClosed only when the server is
shutting down. -/
def step (e : Event) (s : State) : Option State :=
  if s.exit.isSome then none
  else
    match e with
    | .main => mainStep s
    | .coord => coordStep s
    | .interrupt =>
      if s.registered then deliver s
      else some { s with interrupts := s.interrupts + 1, exit := some interruptStatus }
    | .serveReturns err =>
      if s.main = .serving ∧ (err = .closed → s.shuttingDown = true) then
        some { s with main := .served err, serveResult := some err }
      else none
    | .shutdownReturns err =>
      if s.coord = .inShutdown then
        some { s with coord := .shutdownReturned err, shutdownResult := some err }
      else none

/-- The process after a schedule; none when one of its events is not
enabled. -/
def run : List Event → State → Option State
  | [], s => some s
  | e :: es, s => (step e s).bind (run es)

/-- One turn of an unending schedule: the step of the event, and no change
when the event is not enabled (a goroutine that is blocked, a call that has
not been made, a process that has ended). -/
def next (e : Event) (s : State) : State := (step e s).getD s

/-- The process after the first n turns of an unending schedule. -/
def exec (σ : Nat → Event) : Nat → State
  | 0 => init
  | n + 1 => next (σ n) (exec σ n)

/-- The scheduler starves neither goroutine: main and the goroutine of lines
139 to 148 both get a turn again and again. -/
def Fair (σ : Nat → Event) : Prop :=
  (∀ n, ∃ m, n ≤ m ∧ σ m = Event.main) ∧ (∀ n, ∃ m, n ≤ m ∧ σ m = Event.coord)

/-- No interrupt arrives while sigCh is not registered. -/
def NoStrayInterrupt (σ : Nat → Event) : Prop :=
  ∀ m, σ m = Event.interrupt → (exec σ m).exit = none → (exec σ m).registered = true

/-- The statements main has left once ListenAndServe has returned
http.ErrServerClosed. -/
def mainRemaining : MainPc → Nat
  | .served .closed => 5
  | .waited => 4
  | .logged => 3
  | .stopped => 2
  | .closed => 1
  | _ => 0

/-- The statements the goroutine has left once Shutdown has returned. -/
def coordRemaining : CoordPc → Nat
  | .shutdownReturned _ => 2
  | .logged => 1
  | _ => 0

/-- The statements the process has left before it ends. -/
def remaining (s : State) : Nat :=
  if s.exit.isSome then 0 else mainRemaining s.main + coordRemaining s.coord

/-- A schedule with two interrupts: main runs up to ListenAndServe, the
goroutine blocks in its receive, both interrupts arrive, the server shuts
down and both goroutines run to their end. -/
def twoInterrupts : List Event :=
  [.main, .main, .main, .main, .main, .coord, .interrupt, .interrupt, .coord,
   .serveReturns .closed, .shutdownReturns none, .coord, .coord,
   .main, .main, .main, .main, .main]

/-- The process after the schedule twoInterrupts. -/
def afterTwoInterrupts : State :=
  { main := .closed, coord := .done,
    sigCh := some { cap := 0, buf := 0, closed := true }, registered := false,
    shuttingDown := true, wg := 0,
    log := ["start http listening :18888", "shutdown", "Bye!"], exit := some 0,
    shutdownCalls := 1, interrupts := 2, dropped := 1, recv := some true,
    serveResult := some .closed, shutdownResult := some none }

/-- A schedule with one interrupt that stops where both ListenAndServe and
Shutdown have returned. -/
def bothReturned : List Event :=
  [.main, .main, .main, .main, .main, .coord, .interrupt, .coord,
   .serveReturns .closed, .shutdownReturns none]

/-- The process after the schedule bothReturned. -/
def afterBothReturned : State :=
  { main := .served .closed, coord := .shutdownReturned none,
    sigCh := some (makeChan 0), registered := true, shuttingDown := true, wg := 1,
    log := ["start http listening :18888"], exit := none, shutdownCalls := 1,
    interrupts := 1, dropped := 0, recv := some true, serveResult := some .closed,
    shutdownResult := some none }

/-- A schedule with one interrupt, run to the end of the process. -/
def oneInterrupt : List Event :=
  bothReturned ++ [.coord, .coord, .main, .main, .main, .main, .main]

/-- The process after the schedule oneInterrupt. -/
def afterOneInterrupt : State :=
  { main := .closed, coord := .done,
    sigCh := some { cap := 0, buf := 0, closed := true }, registered := false,
    shuttingDown := true, wg := 0,
    log := ["start http listening :18888", "shutdown", "Bye!"], exit := some 0,
    shutdownCalls := 1, interrupts := 1, dropped := 0, recv := some true,
    serveResult := some .closed, shutdownResult := some none }

/-- A schedule in which a second interrupt arrives after the deferred
signal.Stop has run and before the process has ended. -/
def lateInterrupt : List Event :=
  bothReturned ++ [.coord, .coord, .main, .main, .main, .interrupt]

/-- An unending schedule: bothReturned, then the goroutine and main in
turn. -/
def fairSchedule (n : Nat) : Event :=
  if n < 10 then bothReturned.getD n Event.main
  else if n % 2 = 0 then Event.coord else Event.main

/-- A schedule in which ListenAndServe fails, and the interrupt arrives
before main has reached log.Fatalf. -/
def serveFailsFirst : List Event :=
  [.main, .main, .main, .main, .main, .coord,
   .serveReturns (.other "listen tcp 127.0.0.1:18888: bind: address already in use"),
   .interrupt, .coord, .shutdownReturns none, .coord, .main]

/-- A schedule in which the interrupt arrives after signal.Notify and before
the goroutine is in its receive. -/
def earlyInterrupt : List Event :=
  [.main, .main, .interrupt, .main, .main, .coord]

/-! ## The invariant of main -/

/-- The channel at each position of main. -/
def chanAt : MainPc → Option Chan
  | .start => none
  | .closed => some { cap := 0, buf := 0, closed := true }
  | _ => some (makeChan 0)

/-- Whether sigCh is registered at each position of main. -/
def registeredAt : MainPc → Bool
  | .start | .madeChan | .stopped | .closed => false
  | _ => true

/-- What ListenAndServe has returned at each position of main. -/
def serveResultAt : MainPc → Option ServeError
  | .served e => some e
  | .waited | .logged | .stopped | .closed => some .closed
  | _ => none

/-- Whether the go statement has run. -/
def spawnedAt : MainPc → Bool
  | .start | .madeChan | .notified | .configured => false
  | _ => true

/-- Whether wg.Wait has returned. -/
def joinedAt : MainPc → Bool
  | .waited | .logged | .stopped | .closed => true
  | _ => false

/-- The ok of the receive at each position of the goroutine. -/
def recvAt : CoordPc → Option Bool
  | .notStarted | .started | .parked => none
  | .received ok => some ok
  | _ => some true

/-- The number of calls of Shutdown at each position of the goroutine. -/
def callsAt : CoordPc → Nat
  | .inShutdown | .shutdownReturned _ | .logged | .done => 1
  | _ => 0

/-- What Shutdown has returned at each position of the goroutine. -/
def shutdownResultAt : CoordPc → Option (Option String)
  | .shutdownReturned e => some e
  | .logged | .done => some none
  | _ => none

/-- The counter of wg at each position of the goroutine. -/
def wgAt : CoordPc → Nat
  | .notStarted | .done => 0
  | _ => 1

/-- The log line of line 134. -/
def startLogAt : MainPc → List String
  | .start | .madeChan | .notified => []
  | _ => ["start http listening :18888"]

/-- The log line of line 146. -/
def shutdownLogAt : CoordPc → List String
  | .logged | .done => ["shutdown"]
  | _ => []

/-- The log line of line 154. -/
def byeLogAt : MainPc → List String
  | .logged | .stopped | .closed => ["Bye!"]
  | _ => []

/-- The log of a process that has met no fatal error. -/
def expectedLog (main : MainPc) (coord : CoordPc) : List String :=
  startLogAt main ++ shutdownLogAt coord ++ byeLogAt main

/-- What holds of every state main can reach. -/
structure Inv (s : State) : Prop where
  chan : s.sigCh = chanAt s.main
  reg : s.registered = registeredAt s.main
  serve : s.serveResult = serveResultAt s.main
  spawn : s.coord = .notStarted ↔ spawnedAt s.main = false
  join : joinedAt s.main = true → s.coord = .done
  sentinel : s.main = .served .closed → s.shuttingDown = true
  recv : s.recv = recvAt s.coord
  calls : s.shutdownCalls = callsAt s.coord
  down : s.shuttingDown = true ↔ callsAt s.coord = 1
  result : s.shutdownResult = shutdownResultAt s.coord
  wg : s.wg = wgAt s.coord
  ok : s.coord ≠ .received false
  exit : s.exit = none ∨ (s.exit = some 0 ∧ s.main = .closed) ∨
    (s.exit = some 1 ∧ ((∃ msg, s.main = .served (.other msg)) ∨
      (∃ msg, s.coord = .shutdownReturned (some msg)))) ∨
    (s.exit = some interruptStatus ∧ s.registered = false)
  log : s.exit ≠ some 1 → s.log = expectedLog s.main s.coord
  fatal : s.exit = some 1 →
    ∃ line, s.log = expectedLog s.main s.coord ++ [line] ∧ line ≠ "Bye!"
  count : s.dropped ≤ s.interrupts
  kept : s.recv = some true → s.dropped < s.interrupts

/-- The states from which the process is to end: the invariant holds, Shutdown
has returned without error and ListenAndServe has returned
http.ErrServerClosed. -/
def Good (s : State) : Prop :=
  Inv s ∧ s.shutdownResult = some none ∧ s.serveResult = some ServeError.closed

/-- The goroutine that can take the next statement in a Good state: the
goroutine of lines 139 to 148 until it has completed, main afterwards. -/
def ready (s : State) : Event :=
  if s.coord = CoordPc.done then Event.main else Event.coord

/-! ## Part 1: what the handler answers -/

theorem error_result (msg : String) :
    (Error newWriter msg StatusInternalServerError).result =
      { status := 500,
        header := [("X-Content-Type-Options", ["nosniff"]),
                   ("Content-Type", ["text/plain; charset=utf-8"])],
        body := msg ++ "\n" } := by
  have h1 : Header.Set (Header.Set (Header.Del newWriter.header "Content-Length")
      "Content-Type" "text/plain; charset=utf-8") "X-Content-Type-Options" "nosniff"
      = [("X-Content-Type-Options", ["nosniff"]),
         ("Content-Type", ["text/plain; charset=utf-8"])] := by rfl
  simp only [Error, h1]
  simp [ResponseWriter.Write, ResponseWriter.WriteHeader, ResponseWriter.result, newWriter,
    bodyAllowedForStatus, StatusInternalServerError]

theorem write_result (s : String) :
    (newWriter.Write s).result = { status := 200, header := [], body := s } := by
  simp [ResponseWriter.Write, ResponseWriter.WriteHeader, ResponseWriter.result, newWriter,
    bodyAllowedForStatus]

theorem respond_dump_error (t : Templates) (r : Request) (err : String)
    (hd : r.dump = .error err) :
    respond t r = (Error newWriter err StatusInternalServerError).result := by
  simp only [respond, handler, hd]

theorem respond_favicon (t : Templates) (r : Request) (d : String) (hd : r.dump = .ok d)
    (hk : Base r.Path = "favicon.ico") :
    respond t r =
      { status := 404,
        header := [("X-Content-Type-Options", ["nosniff"]),
                   ("Content-Type", ["text/plain; charset=utf-8"])],
        body := "404 page not found\n" } := by
  simp only [respond, handler, hd, switchBase, hk]
  rfl

theorem respond_index (t : Templates) (r : Request) (d : String) (hd : r.dump = .ok d)
    (hk : Base r.Path = "index.html") :
    respond t r = (renderTemplate t "index.html" index newWriter).result := by
  simp only [respond, handler, hd, switchBase, hk]
  rfl

theorem respond_redirectForm (t : Templates) (r : Request) (d : String)
    (hd : r.dump = .ok d) (hk : Base r.Path = "redirect-form") :
    respond t r = (renderTemplate t "redirect-form.html" redirectForm newWriter).result := by
  simp only [respond, handler, hd, switchBase, hk]
  rfl

theorem respond_welcome_first (t : Templates) (r : Request) (d : String)
    (hd : r.dump = .ok d) (hk : Base r.Path = "welcome")
    (hc : Header.index r.Header "Cookie" = none) :
    respond t r =
      { status := 200, header := [("Set-Cookie", ["VISIT=TRUE"])],
        body := "<html><body>Thank you, you're first visit!</body></html>\n" ++ helloWorld } := by
  simp only [respond, handler, hd, switchBase, hk, hc]
  rfl

theorem respond_welcome_back (t : Templates) (r : Request) (d : String) (vs : List String)
    (hd : r.dump = .ok d) (hk : Base r.Path = "welcome")
    (hc : Header.index r.Header "Cookie" = some vs) :
    respond t r =
      { status := 200, header := [("Set-Cookie", ["VISIT=TRUE"])],
        body := "<html><body>Thank you, comeback!</body></html>\n" ++ helloWorld } := by
  simp only [respond, handler, hd, switchBase, hk, hc]
  rfl

theorem respond_digest_anon (t : Templates) (r : Request) (d : String)
    (hd : r.dump = .ok d) (hk : Base r.Path = "digest")
    (ha : Header.index r.Header "Authorization" = none) :
    respond t r =
      { status := 401, header := [("Www-Authenticate", [digestChallenge])],
        body := helloWorld } := by
  simp only [respond, handler, hd, switchBase, hk, ha]
  rfl

theorem respond_digest_auth (t : Templates) (r : Request) (d : String) (vs : List String)
    (hd : r.dump = .ok d) (hk : Base r.Path = "digest")
    (ha : Header.index r.Header "Authorization" = some vs) :
    respond t r =
      { status := 200, header := [],
        body := "<html><body>secret page</body></html>\n" ++ helloWorld } := by
  simp only [respond, handler, hd, switchBase, hk, ha]
  rfl

theorem respond_unmatched (t : Templates) (r : Request) (d : String)
    (hd : r.dump = .ok d) (hk : Base r.Path ∉ tableKeys) :
    respond t r = { status := 200, header := [], body := helloWorld } := by
  simp only [tableKeys, List.mem_cons, List.mem_singleton, List.not_mem_nil, or_false,
    not_or] at hk
  obtain ⟨k1, k2, k3, k4, k5, k6, k7, k8, k9, k10⟩ := hk
  simp only [respond, handler, hd, switchBase, k1, k2, k3, k4, k5, k6, k7, k8, k9, k10,
    if_false]
  rfl

theorem respond_status_other (t : Templates) (r : Request) (d : String)
    (hd : r.dump = .ok d) (k1 : Base r.Path ≠ "index.html")
    (k2 : Base r.Path ≠ "redirect-form") : (respond t r).status ≠ 500 := by
  simp only [respond, handler, hd, switchBase]
  split_ifs <;> decide

theorem render_status (t : Templates) (name text : String)
    (hclean : ∀ s, t.Execute name ≠ .failed (some s)) :
    ((renderTemplate t name text newWriter).result.status = 500 ↔ templateFails t name text)
    ∧ ((renderTemplate t name text newWriter).result.status = 500 →
        (renderTemplate t name text newWriter).result.body = "internal server error\n") := by
  unfold renderTemplate templateFails
  cases hp : t.Parse name text with
  | some e => simp [error_result]
  | none =>
    cases he : t.Execute name with
    | done => simp [write_result]
    | failed wr =>
      cases wr with
      | none => simp [error_result]
      | some s => exact absurd he (hclean s)

/-- C1, at /redirect-307: the handler answers status 308 (line 120 passes
http.StatusPermanentRedirect), not the 307 of the key, with the header
Location: /redirected-location; its sibling /redirect-303 answers 303. -/
theorem redirect_307_answers_308 (t : Templates) (h : Header) (d : String) :
    (respond t { Path := "/redirect-307", Header := h, dump := .ok d }).status = 308
    ∧ (respond t { Path := "/redirect-307", Header := h, dump := .ok d }).status ≠ 307
    ∧ Header.Values (respond t { Path := "/redirect-307", Header := h, dump := .ok d }).header
        "Location" = ["/redirected-location"]
    ∧ (respond t { Path := "/redirect-303", Header := h, dump := .ok d }).status = 303 := by
  refine ⟨by rfl, ?_, by rfl, by rfl⟩
  have h308 : (respond t { Path := "/redirect-307", Header := h, dump := .ok d }).status
      = 308 := by rfl
  rw [h308]
  decide

/-- C2: a dumped request for digest without an Authorization key is answered
401 with a WWW-Authenticate value containing the realm; with the key, whatever
its values, it is answered 200 with a body containing "secret page". -/
theorem digest_contract (t : Templates) (r : Request) (d : String)
    (hd : r.dump = .ok d) (hk : Base r.Path = "digest") :
    (Header.index r.Header "Authorization" = none →
      (respond t r).status = 401 ∧
      ∃ v ∈ Header.Values (respond t r).header "WWW-Authenticate",
        contains v "Digest realm=\"Secret Zone\"") ∧
    (∀ vs, Header.index r.Header "Authorization" = some vs →
      (respond t r).status = 200 ∧ contains (respond t r).body "secret page") := by
  refine ⟨fun ha => ?_, fun vs ha => ?_⟩
  · rw [respond_digest_anon t r d hd hk ha]
    exact ⟨rfl, digestChallenge, by decide, by decide⟩
  · rw [respond_digest_auth t r d vs hd hk ha]
    exact ⟨rfl, by decide⟩

/-- C2 at a request for /digest whose Authorization header is "anything". -/
theorem digest_contract_witness :
    digestAuthRequest.dump = .ok "" ∧ Base digestAuthRequest.Path = "digest" ∧
    (respond goodTemplates digestAuthRequest).status = 200 ∧
    contains (respond goodTemplates digestAuthRequest).body "secret page" :=
  ⟨rfl, by decide,
    (digest_contract goodTemplates digestAuthRequest "" rfl (by decide)).2 ["anything"]
      (by decide)⟩

/-- C3: a dumped request for welcome is answered with Set-Cookie: VISIT=TRUE;
the body contains "first visit" without a Cookie key and "comeback" with
one. -/
theorem welcome_contract (t : Templates) (r : Request) (d : String)
    (hd : r.dump = .ok d) (hk : Base r.Path = "welcome") :
    Header.Values (respond t r).header "Set-Cookie" = ["VISIT=TRUE"] ∧
    (Header.index r.Header "Cookie" = none → contains (respond t r).body "first visit") ∧
    (∀ vs, Header.index r.Header "Cookie" = some vs →
      contains (respond t r).body "comeback") := by
  cases hc : Header.index r.Header "Cookie" with
  | none =>
    rw [respond_welcome_first t r d hd hk hc]
    refine ⟨by rfl, fun _ => by decide, fun vs h => ?_⟩
    cases h
  | some vs =>
    rw [respond_welcome_back t r d vs hd hk hc]
    refine ⟨by rfl, fun h => ?_, fun _ _ => by decide⟩
    cases h

/-- C3 at a request for /welcome that carries a cookie. -/
theorem welcome_contract_witness :
    welcomeBackRequest.dump = .ok "" ∧ Base welcomeBackRequest.Path = "welcome" ∧
    Header.Values (respond goodTemplates welcomeBackRequest).header "Set-Cookie"
      = ["VISIT=TRUE"] ∧
    contains (respond goodTemplates welcomeBackRequest).body "comeback" :=
  ⟨rfl, by decide,
    (welcome_contract goodTemplates welcomeBackRequest "" rfl (by decide)).1,
    (welcome_contract goodTemplates welcomeBackRequest "" rfl (by decide)).2.2
      ["VISIT=TRUE"] (by decide)⟩

/-- C4 as stated fails: the answer to /favicon.ico is not a 404 with an empty
body, the body is the text http.NotFound writes. -/
theorem favicon_body_not_empty :
    ¬ ((respond goodTemplates faviconRequest).status = 404 ∧
       (respond goodTemplates faviconRequest).body = "") := by
  decide

/-- C4 amended: a dumped request for favicon.ico is answered 404 with the body
"404 page not found" and a line feed. -/
theorem favicon_not_found (t : Templates) (r : Request) (d : String)
    (hd : r.dump = .ok d) (hk : Base r.Path = "favicon.ico") :
    (respond t r).status = 404 ∧ (respond t r).body = "404 page not found\n" := by
  rw [respond_favicon t r d hd hk]
  exact ⟨rfl, rfl⟩

/-- C4 amended at a request for /favicon.ico. -/
theorem favicon_not_found_witness :
    faviconRequest.dump = .ok "" ∧ Base faviconRequest.Path = "favicon.ico" ∧
    (respond goodTemplates faviconRequest).status = 404 ∧
    (respond goodTemplates faviconRequest).body = "404 page not found\n" :=
  ⟨rfl, by decide, favicon_not_found goodTemplates faviconRequest "" rfl (by decide)⟩

/-- C5: a dumped request whose last path segment is none of the ten keys is
answered 200, without a Location, Set-Cookie or WWW-Authenticate header, with
exactly the default body. -/
theorem unmatched_default (t : Templates) (r : Request) (d : String)
    (hd : r.dump = .ok d) (hk : Base r.Path ∉ tableKeys) :
    (respond t r).status = 200 ∧
    Header.Values (respond t r).header "Location" = [] ∧
    Header.Values (respond t r).header "Set-Cookie" = [] ∧
    Header.Values (respond t r).header "WWW-Authenticate" = [] ∧
    (respond t r).body = "<html><body>Hello, World!</body></html>\n" := by
  rw [respond_unmatched t r d hd hk]
  exact ⟨rfl, rfl, rfl, rfl, rfl⟩

/-- C5 at a request for /Welcome that carries a cookie: the match is case
sensitive. -/
theorem unmatched_default_witness :
    capitalWelcomeRequest.dump = .ok "" ∧ Base capitalWelcomeRequest.Path ∉ tableKeys ∧
    (respond goodTemplates capitalWelcomeRequest).status = 200 ∧
    Header.Values (respond goodTemplates capitalWelcomeRequest).header "Set-Cookie" = [] ∧
    (respond goodTemplates capitalWelcomeRequest).body
      = "<html><body>Hello, World!</body></html>\n" :=
  have h := unmatched_default goodTemplates capitalWelcomeRequest "" rfl (by decide)
  ⟨rfl, by decide, h.1, h.2.2.1, h.2.2.2.2⟩

/-- C6 as stated fails: a request for /unknown whose dump fails is answered
500, its key is neither index.html nor redirect-form, and the message is the
text of the dump error, not the generic one. -/
theorem dump_failure_answers_500 :
    (respond goodTemplates undumpableRequest).status = 500 ∧
    Base undumpableRequest.Path ≠ "index.html" ∧
    Base undumpableRequest.Path ≠ "redirect-form" ∧
    (respond goodTemplates undumpableRequest).body = "unexpected EOF\n" ∧
    (respond goodTemplates undumpableRequest).body ≠ "internal server error\n" := by
  decide

/-- C6 amended: when no Execute fails after it has written, the status is 500
exactly when the dump fails, or the key is index.html or redirect-form and the
template of that page fails; the message is the text of the dump error in the
first case and "internal server error" in the second. -/
theorem status_500_iff (t : Templates) (r : Request)
    (hclean : ∀ name s, t.Execute name ≠ .failed (some s)) :
    ((respond t r).status = 500 ↔
      ((∃ err, r.dump = .error err) ∨
       ((∃ d, r.dump = .ok d) ∧
        ((Base r.Path = "index.html" ∧ templateFails t "index.html" index) ∨
         (Base r.Path = "redirect-form" ∧
            templateFails t "redirect-form.html" redirectForm)))))
    ∧ (∀ err, r.dump = .error err → (respond t r).body = err ++ "\n")
    ∧ (∀ d, r.dump = .ok d → (respond t r).status = 500 →
        (respond t r).body = "internal server error\n") := by
  cases hd : r.dump with
  | error err =>
    rw [respond_dump_error t r err hd, error_result]
    simp
  | ok d =>
    by_cases k1 : Base r.Path = "index.html"
    · have hr := render_status t "index.html" index (hclean "index.html")
      rw [respond_index t r d hd k1]
      simp [k1, hr.1]
      exact fun hf => hr.2 (hr.1.2 hf)
    · by_cases k2 : Base r.Path = "redirect-form"
      · have hr := render_status t "redirect-form.html" redirectForm
          (hclean "redirect-form.html")
        rw [respond_redirectForm t r d hd k2]
        simp [k2, hr.1]
        exact fun hf => hr.2 (hr.1.2 hf)
      · have h := respond_status_other t r d hd k1 k2
        simp [h, k1, k2]

/-- C6 amended at a request for /index.html whose template fails to execute:
the answer is the generic 500. -/
theorem status_500_iff_witness :
    (∀ name s, failingTemplates.Execute name ≠ .failed (some s)) ∧
    (respond failingTemplates indexRequest).status = 500 ∧
    (respond failingTemplates indexRequest).body = "internal server error\n" :=
  have hc : ∀ name s, failingTemplates.Execute name ≠ .failed (some s) := by
    intro name s h
    cases h
  have h := status_500_iff failingTemplates indexRequest hc
  have h500 : (respond failingTemplates indexRequest).status = 500 :=
    h.1.2 (Or.inr ⟨⟨"", rfl⟩, Or.inl ⟨by decide, Or.inr (by decide)⟩⟩)
  ⟨hc, h500, h.2.2 "" rfl h500⟩

/-- C9 as stated fails: after the 401 of /digest the handler writes the
default body. -/
theorem digest_challenge_body_not_empty :
    (respond goodTemplates digestAnonRequest).status = 401 ∧
    (respond goodTemplates digestAnonRequest).body ≠ "" ∧
    (respond goodTemplates digestAnonRequest).body
      = "<html><body>Hello, World!</body></html>\n" := by
  decide

/-- C9 amended: a dumped request for digest without an Authorization key is
answered 401 with the challenge, and the handler then leaves the switch and
writes the default body: the body is exactly that of line 122. -/
theorem digest_challenge_falls_through (t : Templates) (r : Request) (d : String)
    (hd : r.dump = .ok d) (hk : Base r.Path = "digest")
    (ha : Header.index r.Header "Authorization" = none) :
    (respond t r).status = 401 ∧
    Header.Values (respond t r).header "WWW-Authenticate" = [digestChallenge] ∧
    (respond t r).body = "<html><body>Hello, World!</body></html>\n" := by
  rw [respond_digest_anon t r d hd hk ha]
  exact ⟨rfl, by rfl, rfl⟩

/-- C9 amended at a request for /digest without an Authorization header. -/
theorem digest_challenge_falls_through_witness :
    digestAnonRequest.dump = .ok "" ∧ Base digestAnonRequest.Path = "digest" ∧
    Header.index digestAnonRequest.Header "Authorization" = none ∧
    (respond goodTemplates digestAnonRequest).status = 401 ∧
    (respond goodTemplates digestAnonRequest).body
      = "<html><body>Hello, World!</body></html>\n" :=
  have h := digest_challenge_falls_through goodTemplates digestAnonRequest "" rfl
    (by decide) (by decide)
  ⟨rfl, by decide, by decide, h.1, h.2.2⟩

/-! ## Part 2: the invariant holds of every reachable state -/

theorem fatal_line_ne (pre msg : String) (h : 4 < pre.length) : pre ++ msg ≠ "Bye!" := by
  intro he
  have hl := congrArg String.length he
  rw [String.length_append] at hl
  have h4 : "Bye!".length = 4 := by decide
  omega

theorem byeLogAt_of_not_joined (m : MainPc) (h : joinedAt m = false) : byeLogAt m = [] := by
  cases m <;> simp_all [joinedAt, byeLogAt]

theorem chan_of_registered (m : MainPc) (h : registeredAt m = true) :
    chanAt m = some (makeChan 0) := by
  cases m <;> simp_all [registeredAt, chanAt]

theorem not_joined_of_not_done (s : State) (h : Inv s) (hd : s.coord ≠ .done) :
    joinedAt s.main = false := by
  cases hj : joinedAt s.main
  · rfl
  · exact absurd (h.join hj) hd

theorem chan_of_live (s : State) (h : Inv s) (h1 : s.coord ≠ .notStarted)
    (h2 : s.coord ≠ .done) : s.sigCh = some (makeChan 0) ∧ s.registered = true := by
  have hc := h.chan
  have hr := h.reg
  have hsp := h.spawn
  have hj := not_joined_of_not_done s h h2
  cases hm : s.main <;> simp_all [chanAt, registeredAt, spawnedAt, joinedAt]

theorem inv_init : Inv init := by
  constructor <;>
    simp [init, chanAt, registeredAt, serveResultAt, spawnedAt, joinedAt, recvAt, callsAt,
      shutdownResultAt, wgAt, expectedLog, startLogAt, shutdownLogAt, byeLogAt]

theorem inv_mainStep (s s1 : State) (h : Inv s) (hx : s.exit = none)
    (hs : mainStep s = some s1) : Inv s1 := by
  have hlog : s.log = expectedLog s.main s.coord := h.log (by simp [hx])
  obtain ⟨h1, h2, h3, h4, h5, h6, h7, h8, h9, h10, h11, h12, -, -, -, h16, h17⟩ := h
  unfold mainStep at hs
  cases hm : s.main with
  | served e =>
    cases e with
    | closed =>
      simp only [hm] at hs
      split at hs
      · simp only [Option.some.injEq] at hs
        subst hs
        have hc : s.coord = .done := by
          cases hco : s.coord <;> simp_all [wgAt, spawnedAt]
        constructor <;>
          simp_all [chanAt, registeredAt, serveResultAt, spawnedAt, joinedAt, expectedLog,
            startLogAt, shutdownLogAt, byeLogAt, makeChan, wgAt, callsAt]
      · simp at hs
    | other msg =>
      simp only [hm, Option.some.injEq] at hs
      subst hs
      have hne := fatal_line_ne "unexpected shutdown: " msg (by decide)
      constructor <;>
        simp_all [chanAt, registeredAt, serveResultAt, spawnedAt, joinedAt, expectedLog,
          startLogAt, shutdownLogAt, byeLogAt, makeChan, wgAt, callsAt]
  | serving => simp [hm] at hs
  | _ =>
    simp only [hm, Option.some.injEq] at hs
    subst hs
    constructor <;>
      simp_all [chanAt, registeredAt, serveResultAt, spawnedAt, joinedAt, expectedLog,
        startLogAt, shutdownLogAt, byeLogAt, makeChan, wgAt, callsAt, recvAt,
        shutdownResultAt]

theorem inv_coordStep (s s1 : State) (h : Inv s) (hx : s.exit = none)
    (hs : coordStep s = some s1) : Inv s1 := by
  have hlog : s.log = expectedLog s.main s.coord := h.log (by simp [hx])
  cases hco : s.coord with
  | notStarted => simp [coordStep, hco] at hs
  | inShutdown => simp [coordStep, hco] at hs
  | done => simp [coordStep, hco] at hs
  | started =>
    have hch := chan_of_live s h (by simp [hco]) (by simp [hco])
    simp [coordStep, hco, hch.1, makeChan] at hs
    subst hs
    obtain ⟨h1, h2, h3, h4, h5, h6, h7, h8, h9, h10, h11, h12, -, -, -, h16, h17⟩ := h
    constructor <;>
      simp_all [recvAt, callsAt, shutdownResultAt, wgAt, expectedLog, shutdownLogAt, makeChan]
  | parked =>
    have hch := chan_of_live s h (by simp [hco]) (by simp [hco])
    simp [coordStep, hco, hch.1, makeChan] at hs
  | received ok =>
    cases ok with
    | false => exact absurd hco h.ok
    | true =>
      simp [coordStep, hco] at hs
      subst hs
      obtain ⟨h1, h2, h3, h4, h5, h6, h7, h8, h9, h10, h11, h12, -, -, -, h16, h17⟩ := h
      constructor <;>
        simp_all [recvAt, callsAt, shutdownResultAt, wgAt, expectedLog, shutdownLogAt]
  | shutdownReturned e =>
    have hj := byeLogAt_of_not_joined _ (not_joined_of_not_done s h (by simp [hco]))
    cases e with
    | none =>
      simp [coordStep, hco] at hs
      subst hs
      obtain ⟨h1, h2, h3, h4, h5, h6, h7, h8, h9, h10, h11, h12, -, -, -, h16, h17⟩ := h
      constructor <;>
        simp_all [recvAt, callsAt, shutdownResultAt, wgAt, expectedLog, shutdownLogAt]
    | some msg =>
      simp [coordStep, hco] at hs
      subst hs
      have hne := fatal_line_ne "shutdown error: " msg (by decide)
      obtain ⟨h1, h2, h3, h4, h5, h6, h7, h8, h9, h10, h11, h12, -, -, -, h16, h17⟩ := h
      constructor <;>
        simp_all [recvAt, callsAt, shutdownResultAt, wgAt, expectedLog, shutdownLogAt]
  | logged =>
    have hw : s.wg = 1 := by rw [h.wg, hco]; rfl
    simp [coordStep, hco, wgDone, hw] at hs
    subst hs
    obtain ⟨h1, h2, h3, h4, h5, h6, h7, h8, h9, h10, h11, h12, -, -, -, h16, h17⟩ := h
    constructor <;>
      simp_all [recvAt, callsAt, shutdownResultAt, wgAt, expectedLog, shutdownLogAt]

theorem inv_deliver (s s1 : State) (h : Inv s) (hx : s.exit = none)
    (hr : s.registered = true) (hs : deliver s = some s1) : Inv s1 := by
  have hlog : s.log = expectedLog s.main s.coord := h.log (by simp [hx])
  have hch : s.sigCh = some (makeChan 0) := by
    rw [h.chan]; exact chan_of_registered _ (by rw [← h.reg]; exact hr)
  by_cases hp : s.coord = .parked
  · simp [deliver, hch, makeChan, hp] at hs
    subst hs
    have hj := not_joined_of_not_done s h (by simp [hp])
    obtain ⟨h1, h2, h3, h4, h5, h6, h7, h8, h9, h10, h11, h12, -, -, -, h16, h17⟩ := h
    constructor <;>
      simp_all [recvAt, callsAt, shutdownResultAt, wgAt, expectedLog, shutdownLogAt, makeChan]
    all_goals omega
  · simp [deliver, hch, makeChan, hp] at hs
    subst hs
    obtain ⟨h1, h2, h3, h4, h5, h6, h7, h8, h9, h10, h11, h12, -, -, -, h16, h17⟩ := h
    constructor <;> simp_all [makeChan]

theorem inv_step (e : Event) (s s1 : State) (h : Inv s) (hs : step e s = some s1) :
    Inv s1 := by
  unfold step at hs
  cases hx : s.exit with
  | some c => simp [hx] at hs
  | none =>
    simp only [hx, Option.isSome_none, Bool.false_eq_true, if_false] at hs
    have hlog : s.log = expectedLog s.main s.coord := h.log (by simp [hx])
    cases e with
    | main => exact inv_mainStep s s1 h hx hs
    | coord => exact inv_coordStep s s1 h hx hs
    | interrupt =>
      by_cases hr : s.registered = true
      · simp only [hr, if_true] at hs
        exact inv_deliver s s1 h hx hr hs
      · have hr2 : s.registered = false := by simpa using hr
        simp only [hr2, Bool.false_eq_true, if_false, Option.some.injEq] at hs
        subst hs
        have hk := h.kept
        obtain ⟨h1, h2, h3, h4, h5, h6, h7, h8, h9, h10, h11, h12, -, -, -, h16, -⟩ := h
        constructor <;> simp_all [interruptStatus]
        all_goals omega
    | serveReturns err =>
      simp only at hs
      split at hs
      · rename_i hc
        simp only [Option.some.injEq] at hs
        subst hs
        obtain ⟨h1, h2, h3, h4, h5, h6, h7, h8, h9, h10, h11, h12, -, -, -, h16, h17⟩ := h
        constructor <;>
          simp_all [chanAt, registeredAt, serveResultAt, spawnedAt, joinedAt, expectedLog,
            startLogAt, byeLogAt]
      · simp at hs
    | shutdownReturns err =>
      simp only at hs
      split at hs
      · rename_i hc
        simp only [Option.some.injEq] at hs
        subst hs
        have hj := not_joined_of_not_done s h (by simp [hc])
        obtain ⟨h1, h2, h3, h4, h5, h6, h7, h8, h9, h10, h11, h12, -, -, -, h16, h17⟩ := h
        constructor <;>
          simp_all [recvAt, callsAt, shutdownResultAt, wgAt, expectedLog, shutdownLogAt]
      · simp at hs

theorem inv_run (es : List Event) (s s1 : State) (h : Inv s) (hs : run es s = some s1) :
    Inv s1 := by
  induction es generalizing s with
  | nil =>
    simp only [run, Option.some.injEq] at hs
    exact hs ▸ h
  | cons e es ih =>
    simp only [run] at hs
    cases hst : step e s with
    | none => simp [hst] at hs
    | some s2 =>
      rw [hst] at hs
      exact ih s2 (inv_step e s s2 h hst) hs

theorem inv_reachable (es : List Event) (s : State) (hs : run es init = some s) : Inv s :=
  inv_run es init s inv_init hs

/-! ## Part 2: the calls of Shutdown and the interrupts -/

theorem mainStep_counters (s s1 : State) (hs : mainStep s = some s1) :
    s1.interrupts = s.interrupts ∧ s1.shutdownCalls = s.shutdownCalls := by
  unfold mainStep at hs
  split at hs
  case h_8 =>
    split at hs
    · simp only [Option.some.injEq] at hs
      subst hs
      exact ⟨rfl, rfl⟩
    · cases hs
  all_goals
    cases hs
    first
      | done
      | exact ⟨rfl, rfl⟩

theorem coordStep_counters (s s1 : State) (hs : coordStep s = some s1) :
    s1.interrupts = s.interrupts ∧
    (s1.shutdownCalls = s.shutdownCalls ∨
      (s.coord = .received true ∧ s1.shutdownCalls = s.shutdownCalls + 1)) := by
  unfold coordStep at hs
  cases hco : s.coord with
  | received ok =>
    cases ok <;> simp [hco, wgDone] at hs
    · split at hs <;> (subst hs; simp)
    · subst hs
      simp
  | started =>
    simp only [hco] at hs
    split at hs
    · cases hs
    · split_ifs at hs <;>
        (simp only [Option.some.injEq] at hs
         subst hs
         simp)
  | parked =>
    simp only [hco] at hs
    split at hs
    · cases hs
    · split_ifs at hs
      simp only [Option.some.injEq] at hs
      subst hs
      simp
  | shutdownReturned e =>
    cases e <;> simp [hco] at hs <;> (subst hs; simp)
  | logged =>
    simp [hco, wgDone] at hs
    split at hs <;> (subst hs; simp)
  | notStarted => simp [hco] at hs
  | inShutdown => simp [hco] at hs
  | done => simp [hco] at hs

theorem deliver_counters (s s1 : State) (hs : deliver s = some s1) :
    s1.interrupts = s.interrupts + 1 ∧ s1.shutdownCalls = s.shutdownCalls := by
  unfold deliver at hs
  split at hs
  · cases hs
  · split_ifs at hs <;>
      (simp only [Option.some.injEq] at hs
       subst hs
       simp)

theorem step_counters (e : Event) (s s1 : State) (hs : step e s = some s1) :
    s1.interrupts = s.interrupts + (if e = Event.interrupt then 1 else 0) ∧
    (s1.shutdownCalls = s.shutdownCalls ∨
      (e = .coord ∧ s.coord = .received true ∧ s1.shutdownCalls = s.shutdownCalls + 1)) := by
  unfold step at hs
  cases hx : s.exit with
  | some c => simp [hx] at hs
  | none =>
    simp only [hx, Option.isSome_none, Bool.false_eq_true, if_false] at hs
    cases e with
    | main =>
      have h := mainStep_counters s s1 hs
      simp [h.1, h.2]
    | coord =>
      have h := coordStep_counters s s1 hs
      simpa [h.1] using h.2
    | interrupt =>
      simp only at hs
      split at hs
      · have h := deliver_counters s s1 hs
        simp [h.1, h.2]
      · simp only [Option.some.injEq] at hs
        subst hs
        simp
    | serveReturns err =>
      simp only at hs
      split at hs
      · simp only [Option.some.injEq] at hs
        subst hs
        simp
      · cases hs
    | shutdownReturns err =>
      simp only at hs
      split at hs
      · simp only [Option.some.injEq] at hs
        subst hs
        simp
      · cases hs

theorem interrupts_run (es : List Event) (s s1 : State) (hs : run es s = some s1) :
    s1.interrupts = s.interrupts + es.count Event.interrupt := by
  induction es generalizing s with
  | nil =>
    simp only [run, Option.some.injEq] at hs
    subst hs
    simp
  | cons e es ih =>
    simp only [run] at hs
    cases hst : step e s with
    | none => simp [hst] at hs
    | some s2 =>
      rw [hst] at hs
      have h1 := (step_counters e s s2 hst).1
      have h2 := ih s2 hs
      rw [h2, h1, List.count_cons]
      by_cases he : e = Event.interrupt
      · simp [he]
        omega
      · have he2 : (e == Event.interrupt) = false := by simpa using he
        simp [he, he2]

/-- C7: in every execution of main, whatever the number of interrupts in its
schedule, Shutdown has been called at most once; a call implies that the
receive of line 141 returned a value (ok = true) and that an interrupt was
delivered before; the receive never returns ok = false; and the step that
calls Shutdown is a step of the goroutine taken after that receive, with no
call before it. -/
theorem shutdown_at_most_once (es : List Event) (s : State)
    (hs : run es init = some s) :
    s.interrupts = es.count Event.interrupt ∧
    s.shutdownCalls ≤ 1 ∧
    (1 ≤ s.shutdownCalls → s.recv = some true ∧ 1 ≤ s.interrupts) ∧
    s.recv ≠ some false ∧
    (∀ e s1, step e s = some s1 → s.shutdownCalls < s1.shutdownCalls →
      e = Event.coord ∧ s.coord = CoordPc.received true ∧ s.recv = some true ∧
      s.shutdownCalls = 0 ∧ 1 ≤ s.interrupts) := by
  have h := inv_reachable es s hs
  have hi := interrupts_run es init s hs
  have hcalls : s.shutdownCalls ≤ 1 := by
    rw [h.calls]
    cases s.coord <;> simp [callsAt]
  have hrecv : 1 ≤ s.shutdownCalls → s.recv = some true := by
    rw [h.calls, h.recv]
    have hok := h.ok
    cases hc : s.coord <;> simp_all [callsAt, recvAt]
  refine ⟨by simpa [init] using hi, hcalls, fun h1 => ?_, ?_, ?_⟩
  · have hr := hrecv h1
    have := h.kept hr
    exact ⟨hr, by omega⟩
  · rw [h.recv]
    have hok := h.ok
    cases hc : s.coord <;> simp_all [recvAt]
  · intro e s1 hst hlt
    rcases (step_counters e s s1 hst).2 with heq | ⟨he, hc, _⟩
    · omega
    · have hr : s.recv = some true := by rw [h.recv, hc]; rfl
      have h0 : s.shutdownCalls = 0 := by rw [h.calls, hc]; rfl
      have := h.kept hr
      exact ⟨he, hc, hr, h0, by omega⟩

/-- C7 at a schedule with two interrupts: Shutdown is called once. -/
theorem shutdown_at_most_once_witness :
    run twoInterrupts init = some afterTwoInterrupts ∧
    afterTwoInterrupts.interrupts = List.count Event.interrupt twoInterrupts ∧
    List.count Event.interrupt twoInterrupts = 2 ∧
    afterTwoInterrupts.shutdownCalls ≤ 1 ∧ afterTwoInterrupts.shutdownCalls = 1 :=
  have h := shutdown_at_most_once twoInterrupts afterTwoInterrupts (by rfl)
  ⟨by rfl, h.1, by decide, h.2.1, by rfl⟩

/-! ## Part 2: the log and the end of the process -/

theorem bye_mem_expected (m : MainPc) (c : CoordPc) (h : "Bye!" ∈ expectedLog m c) :
    joinedAt m = true := by
  cases m <;> cases c <;>
    simp [expectedLog, startLogAt, shutdownLogAt, byeLogAt, joinedAt] at h ⊢

theorem serve_of_joined (s : State) (h : Inv s) (hj : joinedAt s.main = true) :
    s.serveResult = some .closed := by
  rw [h.serve]
  cases hm : s.main <;> simp_all [joinedAt, serveResultAt]

theorem bye_logged_after (s : State) (h : Inv s) (hb : "Bye!" ∈ s.log) :
    s.serveResult = some .closed ∧ s.coord = .done := by
  have hj : joinedAt s.main = true := by
    by_cases hx : s.exit = some 1
    · obtain ⟨line, hl, hne⟩ := h.fatal hx
      rw [hl, List.mem_append, List.mem_singleton] at hb
      rcases hb with hb | hb
      · exact bye_mem_expected _ _ hb
      · exact absurd hb.symm hne
    · rw [h.log hx] at hb
      exact bye_mem_expected _ _ hb
  exact ⟨serve_of_joined s h hj, h.join hj⟩

theorem log_at_exit_zero (s : State) (h : Inv s) (hx : s.exit = some 0) :
    s.log = ["start http listening :18888", "shutdown", "Bye!"] := by
  have hm : s.main = .closed := by
    rcases h.exit with h0 | h0 | h0 | h0
    · rw [h0] at hx; cases hx
    · exact h0.2
    · rw [h0.1] at hx; cases hx
    · rw [h0.1] at hx; cases hx
  have hc : s.coord = .done := h.join (by rw [hm]; rfl)
  rw [h.log (by rw [hx]; decide), hm, hc]
  rfl

theorem coord_of_returned (c : CoordPc) (h : shutdownResultAt c = some none) :
    c = .shutdownReturned none ∨ c = .logged ∨ c = .done := by
  cases c <;> simp_all [shutdownResultAt]

theorem main_of_sentinel (m : MainPc) (h : serveResultAt m = some .closed) :
    m = .served .closed ∨ m = .waited ∨ m = .logged ∨ m = .stopped ∨ m = .closed := by
  cases m <;> simp_all [serveResultAt]

theorem exit_of_both_returned (s : State) (h : Inv s) (hr : s.shutdownResult = some none)
    (hv : s.serveResult = some .closed) :
    s.exit = none ∨ s.exit = some 0 ∨
      (s.exit = some interruptStatus ∧ s.registered = false) := by
  rcases h.exit with h0 | h0 | ⟨_, ⟨msg, hm⟩ | ⟨msg, hc⟩⟩ | h0
  · exact Or.inl h0
  · exact Or.inr (Or.inl h0.1)
  · have := h.serve
    rw [hv, hm] at this
    simp [serveResultAt] at this
  · have := h.result
    rw [hr, hc] at this
    simp [shutdownResultAt] at this
  · exact Or.inr (Or.inr h0)

theorem measure_of_both_returned (s : State) (h : Inv s)
    (hr : s.shutdownResult = some none) (hv : s.serveResult = some .closed)
    (e : Event) (s1 : State) (hs : step e s = some s1) :
    remaining s1 + (if e = Event.interrupt then 0 else 1) ≤ remaining s ∧
    s1.shutdownResult = some none ∧ s1.serveResult = some .closed ∧
    (e = Event.interrupt → s1.main = s.main ∧ s1.coord = s.coord) := by
  have hx : s.exit = none := by
    cases hx : s.exit with
    | none => rfl
    | some c => simp [step, hx] at hs
  have hc := coord_of_returned s.coord (by rw [← h.result]; exact hr)
  have hm := main_of_sentinel s.main (by rw [← h.serve]; exact hv)
  have hw := h.wg
  have hch := h.chan
  unfold step at hs
  simp only [hx, Option.isSome_none, Bool.false_eq_true, if_false] at hs
  cases e with
  | main =>
    simp only at hs
    rcases hm with hm | hm | hm | hm | hm
    · simp [mainStep, hm] at hs
      obtain ⟨_, hs⟩ := hs
      subst hs
      simp [remaining, mainRemaining, hx, hm, hr, hv]
      omega
    all_goals
      simp [mainStep, hm] at hs
      subst hs
      simp [remaining, mainRemaining, hx, hm, hr, hv]
      try omega
  | coord =>
    simp only at hs
    rcases hc with hc | hc | hc
    · simp [coordStep, hc] at hs
      subst hs
      simp [remaining, coordRemaining, hx, hc, hr, hv]
    · rw [hc] at hw
      simp [coordStep, hc, wgDone, hw, wgAt] at hs
      subst hs
      simp [remaining, coordRemaining, hx, hc, hr, hv]
    · simp [coordStep, hc] at hs
  | interrupt =>
    simp only at hs
    split at hs
    · rename_i hreg
      have hch2 : s.sigCh = some (makeChan 0) := by
        rw [hch]; exact chan_of_registered _ (by rw [← h.reg]; exact hreg)
      have hp : s.coord ≠ .parked := by
        rcases hc with hc | hc | hc <;> simp [hc]
      simp [deliver, hch2, makeChan, hp] at hs
      subst hs
      simp [remaining, hx, hr, hv]
    · simp only [Option.some.injEq] at hs
      subst hs
      simp [remaining, hx, hr, hv]
  | serveReturns err =>
    simp only at hs
    split at hs
    · rename_i hcond
      rcases hm with hm | hm | hm | hm | hm <;> simp [hm] at hcond
    · cases hs
  | shutdownReturns err =>
    simp only at hs
    split at hs
    · rename_i hcond
      rcases hc with hc | hc | hc <;> simp [hc] at hcond
    · cases hs

theorem ready_enabled (s : State) (h : Good s) (hx : s.exit = none) :
    (step (ready s) s).isSome = true := by
  obtain ⟨hi, hr, hv⟩ := h
  have hc := coord_of_returned s.coord (by rw [← hi.result]; exact hr)
  have hm := main_of_sentinel s.main (by rw [← hi.serve]; exact hv)
  have hw := hi.wg
  rcases hc with hc | hc | hc
  · simp [ready, step, hx, coordStep, hc]
  · simp [ready, step, hx, coordStep, hc]
  · rw [hc] at hw
    rcases hm with hm | hm | hm | hm | hm <;>
      simp [ready, step, hx, mainStep, hm, hc, hw, wgAt]

theorem ready_ne_interrupt (s : State) : ready s ≠ Event.interrupt := by
  unfold ready
  split <;> simp

theorem step_exit_none (e : Event) (s s1 : State) (hs : step e s = some s1) :
    s.exit = none := by
  cases hx : s.exit with
  | none => rfl
  | some c => simp [step, hx] at hs

theorem next_of_step (e : Event) (s s1 : State) (hs : step e s = some s1) :
    next e s = s1 := by
  simp [next, hs]

theorem next_of_none (e : Event) (s : State) (hs : step e s = none) : next e s = s := by
  simp [next, hs]

theorem inv_next (e : Event) (s : State) (h : Inv s) : Inv (next e s) := by
  cases hs : step e s with
  | none => rw [next_of_none e s hs]; exact h
  | some s1 => rw [next_of_step e s s1 hs]; exact inv_step e s s1 h hs

theorem inv_exec (σ : Nat → Event) (n : Nat) : Inv (exec σ n) := by
  induction n with
  | zero => exact inv_init
  | succ n ih => exact inv_next _ _ ih

theorem good_next (e : Event) (s : State) (h : Good s) : Good (next e s) := by
  cases hs : step e s with
  | none => rw [next_of_none e s hs]; exact h
  | some s1 =>
    rw [next_of_step e s s1 hs]
    have hm := measure_of_both_returned s h.1 h.2.1 h.2.2 e s1 hs
    exact ⟨inv_step e s s1 h.1 hs, hm.2.1, hm.2.2.1⟩

theorem good_exec (σ : Nat → Event) (n d : Nat) (h : Good (exec σ n)) :
    Good (exec σ (n + d)) := by
  induction d with
  | zero => exact h
  | succ d ih => exact good_next _ _ ih

theorem ready_step (s : State) (h : Good s) (hx : s.exit = none) :
    remaining (next (ready s) s) < remaining s := by
  have he := ready_enabled s h hx
  cases hs : step (ready s) s with
  | none => simp [hs] at he
  | some s1 =>
    rw [next_of_step _ s s1 hs]
    have hm := (measure_of_both_returned s h.1 h.2.1 h.2.2 _ s1 hs).1
    simp only [ready_ne_interrupt s, if_false] at hm
    omega

theorem next_cases (e : Event) (s : State) (h : Good s) (hx : s.exit = none) :
    remaining (next e s) < remaining s ∨ (next e s).exit.isSome = true ∨
    ((next e s).exit = none ∧ ready (next e s) = ready s ∧
      remaining (next e s) = remaining s) := by
  cases hs : step e s with
  | none =>
    rw [next_of_none e s hs]
    exact Or.inr (Or.inr ⟨hx, rfl, rfl⟩)
  | some s1 =>
    rw [next_of_step e s s1 hs]
    have hm := measure_of_both_returned s h.1 h.2.1 h.2.2 e s1 hs
    by_cases he : e = Event.interrupt
    · obtain ⟨hmain, hcoord⟩ := hm.2.2.2 he
      cases hx1 : s1.exit with
      | some c => exact Or.inr (Or.inl rfl)
      | none =>
        refine Or.inr (Or.inr ⟨rfl, ?_, ?_⟩)
        · simp [ready, hcoord]
        · simp [remaining, hx, hx1, hmain, hcoord]
    · have h1 := hm.1
      simp only [he, if_false] at h1
      exact Or.inl (by omega)

theorem eventually_less (σ : Nat → Event) (d n : Nat) (h : Good (exec σ n))
    (hx : (exec σ n).exit = none) (hd : σ (n + d) = ready (exec σ n)) :
    ∃ m, n < m ∧ (remaining (exec σ m) < remaining (exec σ n) ∨
      (exec σ m).exit.isSome = true) := by
  induction d generalizing n with
  | zero =>
    refine ⟨n + 1, by omega, Or.inl ?_⟩
    have := ready_step _ h hx
    rw [← hd] at this
    exact this
  | succ d ih =>
    have hn : exec σ (n + 1) = next (σ n) (exec σ n) := rfl
    rcases next_cases (σ n) _ h hx with hlt | hend | ⟨hx1, hrdy, hrem⟩
    · exact ⟨n + 1, by omega, Or.inl (by rw [hn]; exact hlt)⟩
    · exact ⟨n + 1, by omega, Or.inr (by rw [hn]; exact hend)⟩
    · have hg : Good (exec σ (n + 1)) := good_next _ _ h
      have hd1 : σ (n + 1 + d) = ready (exec σ (n + 1)) := by
        rw [hn, hrdy, ← hd]
        congr 1
        omega
      obtain ⟨m, hm, hres⟩ := ih (n + 1) hg (by rw [hn]; exact hx1) hd1
      refine ⟨m, by omega, ?_⟩
      rw [hn, hrem] at hres
      exact hres

theorem eventually_ended (σ : Nat → Event) (hf : Fair σ) (k n : Nat)
    (h : Good (exec σ n)) (hk : remaining (exec σ n) ≤ k) :
    ∃ m, n ≤ m ∧ (exec σ m).exit.isSome = true := by
  induction k generalizing n with
  | zero =>
    cases hx : (exec σ n).exit with
    | some c => exact ⟨n, le_refl n, by simp [hx]⟩
    | none =>
      have hr : ∃ m, n ≤ m ∧ σ m = ready (exec σ n) := by
        unfold ready
        split
        · exact hf.1 n
        · exact hf.2 n
      obtain ⟨m0, hm0, hs0⟩ := hr
      obtain ⟨m, hm, hres⟩ := eventually_less σ (m0 - n) n h hx
        (by rw [← hs0]; congr 1; omega)
      rcases hres with hlt | hend
      · omega
      · exact ⟨m, by omega, hend⟩
  | succ k ih =>
    cases hx : (exec σ n).exit with
    | some c => exact ⟨n, le_refl n, by simp [hx]⟩
    | none =>
      have hr : ∃ m, n ≤ m ∧ σ m = ready (exec σ n) := by
        unfold ready
        split
        · exact hf.1 n
        · exact hf.2 n
      obtain ⟨m0, hm0, hs0⟩ := hr
      obtain ⟨m, hm, hres⟩ := eventually_less σ (m0 - n) n h hx
        (by rw [← hs0]; congr 1; omega)
      rcases hres with hlt | hend
      · have hg : Good (exec σ m) := by
          have := good_exec σ n (m - n) h
          rwa [show n + (m - n) = m by omega] at this
        obtain ⟨m1, hm1, hend⟩ := ih m hg (by omega)
        exact ⟨m1, by omega, hend⟩
      · exact ⟨m, by omega, hend⟩

theorem ended_stays (σ : Nat → Event) (n : Nat) (h : (exec σ n).exit.isSome = true)
    (d : Nat) : exec σ (n + d) = exec σ n := by
  induction d with
  | zero => rfl
  | succ d ih =>
    have hn : exec σ (n + (d + 1)) = next (σ (n + d)) (exec σ (n + d)) := rfl
    rw [hn, ih]
    simp [next, step, h]

theorem mainStep_exit (s s1 : State) (hs : mainStep s = some s1) :
    s1.exit = s.exit ∨ s1.exit = some 0 ∨ s1.exit = some 1 := by
  unfold mainStep at hs
  split at hs
  case h_8 =>
    split at hs
    · simp only [Option.some.injEq] at hs
      subst hs
      exact Or.inl rfl
    · cases hs
  all_goals
    cases hs
    first
      | done
      | exact Or.inl rfl
      | exact Or.inr (Or.inl rfl)
      | exact Or.inr (Or.inr rfl)

theorem coordStep_exit (s s1 : State) (hs : coordStep s = some s1) :
    s1.exit = s.exit ∨ s1.exit = some 1 ∨ s1.exit = some 2 := by
  unfold coordStep at hs
  cases hco : s.coord with
  | received ok =>
    cases ok <;> simp [hco, wgDone] at hs
    · split at hs <;> (subst hs; simp)
    · subst hs
      simp
  | started =>
    simp only [hco] at hs
    split at hs
    · cases hs
    · split_ifs at hs <;>
        (simp only [Option.some.injEq] at hs
         subst hs
         simp)
  | parked =>
    simp only [hco] at hs
    split at hs
    · cases hs
    · split_ifs at hs
      simp only [Option.some.injEq] at hs
      subst hs
      simp
  | shutdownReturned e =>
    cases e <;> simp [hco] at hs <;> (subst hs; simp)
  | logged =>
    simp [hco, wgDone] at hs
    split at hs <;> (subst hs; simp)
  | notStarted => simp [hco] at hs
  | inShutdown => simp [hco] at hs
  | done => simp [hco] at hs

theorem deliver_exit (s s1 : State) (hs : deliver s = some s1) :
    s1.exit = s.exit ∨ s1.exit = some 2 := by
  unfold deliver at hs
  split at hs
  · cases hs
  · split_ifs at hs <;>
      (simp only [Option.some.injEq] at hs
       subst hs
       simp)

theorem step_killed (e : Event) (s s1 : State) (hs : step e s = some s1)
    (hk : s1.exit = some interruptStatus) :
    e = Event.interrupt ∧ s.registered = false := by
  have hx := step_exit_none e s s1 hs
  unfold step at hs
  simp only [hx, Option.isSome_none, Bool.false_eq_true, if_false] at hs
  cases e with
  | main =>
    rcases mainStep_exit s s1 hs with h | h | h <;>
      (rw [h] at hk; simp [hx, interruptStatus] at hk)
  | coord =>
    rcases coordStep_exit s s1 hs with h | h | h <;>
      (rw [h] at hk; simp [hx, interruptStatus] at hk)
  | interrupt =>
    simp only at hs
    split at hs
    · rcases deliver_exit s s1 hs with h | h <;>
        (rw [h] at hk; simp [hx, interruptStatus] at hk)
    · rename_i hr
      exact ⟨rfl, by simpa using hr⟩
  | serveReturns err =>
    simp only at hs
    split at hs
    · simp only [Option.some.injEq] at hs
      subst hs
      simp [hx] at hk
    · cases hs
  | shutdownReturns err =>
    simp only at hs
    split at hs
    · simp only [Option.some.injEq] at hs
      subst hs
      simp [hx] at hk
    · cases hs

theorem killed_origin (σ : Nat → Event) (n : Nat)
    (hk : (exec σ n).exit = some interruptStatus) : ¬ NoStrayInterrupt σ := by
  induction n with
  | zero => simp [exec, init] at hk
  | succ n ih =>
    have hn : exec σ (n + 1) = next (σ n) (exec σ n) := rfl
    cases hs : step (σ n) (exec σ n) with
    | none =>
      rw [hn, next_of_none _ _ hs] at hk
      exact ih hk
    | some s1 =>
      rw [hn, next_of_step _ _ s1 hs] at hk
      have hx := step_exit_none _ _ s1 hs
      obtain ⟨he, hr⟩ := step_killed _ _ s1 hs hk
      intro hno
      have := hno n he hx
      rw [hr] at this
      cases this

theorem log_of_killed (s : State) (h : Good s) (hr : s.registered = false) :
    s.exit ≠ some 1 → s.log = ["start http listening :18888", "shutdown", "Bye!"] := by
  intro hx
  obtain ⟨hi, _, hv⟩ := h
  have hm := main_of_sentinel s.main (by rw [← hi.serve]; exact hv)
  have hreg := hi.reg
  rw [hr] at hreg
  have hj : joinedAt s.main = true ∧ byeLogAt s.main = ["Bye!"] ∧
      startLogAt s.main = ["start http listening :18888"] := by
    rcases hm with hm | hm | hm | hm | hm <;>
      simp [hm, registeredAt, joinedAt, byeLogAt, startLogAt] at hreg ⊢
  have hc := hi.join hj.1
  rw [hi.log hx, expectedLog, hj.2.1, hj.2.2, hc]
  rfl

/-- C8 as stated fails, three times.  After an interrupt and a clean Shutdown
the last log line is "Bye!" and no line is "exiting".  When ListenAndServe has
failed before the interrupt, the interrupt is still received and Shutdown
still returns without error, but the process ends with code 1 and the last
line is that of log.Fatalf.  And when a second interrupt arrives after the
deferred signal.Stop, the process is ended by the signal, not with code 0. -/
theorem final_line_is_bye :
    (run oneInterrupt init = some afterOneInterrupt ∧
      afterOneInterrupt.recv = some true ∧
      afterOneInterrupt.shutdownResult = some none ∧
      afterOneInterrupt.exit = some 0 ∧
      afterOneInterrupt.log.getLast? = some "Bye!" ∧
      "exiting" ∉ afterOneInterrupt.log) ∧
    (run serveFailsFirst init).map
        (fun s => (s.recv, s.shutdownResult, s.exit, s.log.getLast?)) =
      some (some true, some none, some 1,
        some "unexpected shutdown: listen tcp 127.0.0.1:18888: bind: address already in use") ∧
    (run lateInterrupt init).map
        (fun s => (s.recv, s.shutdownResult, s.serveResult, s.exit, s.log)) =
      some (some true, some none, some ServeError.closed, some 130,
        ["start http listening :18888", "shutdown", "Bye!"]) := by
  refine ⟨⟨by rfl, by rfl, by rfl, by rfl, by rfl, by decide⟩, by rfl, by rfl⟩

/-- C8 amended: in every execution of main, "Bye!" is in the log only when
ListenAndServe has returned http.ErrServerClosed and the goroutine has
completed, and a process that ended with code 0 has logged exactly the start
line, "shutdown" and then "Bye!".  In every execution in which the scheduler
starves neither goroutine, once the interrupt is received, Shutdown has
returned without error and ListenAndServe has returned http.ErrServerClosed,
the process ends: there is a moment from which nothing changes any more, the
log is then the start line, "shutdown" and "Bye!" as its final line, and the
process has ended with code 0, or, only when an interrupt arrived while sigCh
was not registered, by that signal. -/
theorem shutdown_then_bye (σ : Nat → Event) :
    (∀ k, "Bye!" ∈ (exec σ k).log →
      (exec σ k).serveResult = some ServeError.closed ∧ (exec σ k).coord = CoordPc.done) ∧
    (∀ k, (exec σ k).exit = some 0 →
      (exec σ k).log = ["start http listening :18888", "shutdown", "Bye!"]) ∧
    (Fair σ → ∀ n0, (exec σ n0).recv = some true →
      (exec σ n0).shutdownResult = some none →
      (exec σ n0).serveResult = some ServeError.closed →
        ∃ n, n0 ≤ n ∧
          (exec σ n).log = ["start http listening :18888", "shutdown", "Bye!"] ∧
          ((exec σ n).exit = some 0 ∨
            ((exec σ n).exit = some interruptStatus ∧ ¬ NoStrayInterrupt σ)) ∧
          (∀ k, n ≤ k → exec σ k = exec σ n)) := by
  refine ⟨fun k => bye_logged_after _ (inv_exec σ k),
    fun k => log_at_exit_zero _ (inv_exec σ k), fun hf n0 _ hr hv => ?_⟩
  have hg : Good (exec σ n0) := ⟨inv_exec σ n0, hr, hv⟩
  obtain ⟨n, hn, hend⟩ := eventually_ended σ hf _ n0 hg (le_refl _)
  have hgn : Good (exec σ n) := by
    have := good_exec σ n0 (n - n0) hg
    rwa [show n0 + (n - n0) = n by omega] at this
  have hstay : ∀ k, n ≤ k → exec σ k = exec σ n := by
    intro k hk
    have := ended_stays σ n hend (k - n)
    rwa [show n + (k - n) = k by omega] at this
  rcases exit_of_both_returned _ hgn.1 hgn.2.1 hgn.2.2 with h0 | h0 | h0
  · rw [h0] at hend
    cases hend
  · exact ⟨n, hn, log_at_exit_zero _ hgn.1 h0, Or.inl h0, hstay⟩
  · refine ⟨n, hn, log_of_killed _ hgn h0.2 ?_, Or.inr ⟨h0.1, killed_origin σ n h0.1⟩, hstay⟩
    rw [h0.1]
    decide

theorem fair_fairSchedule : Fair fairSchedule := by
  constructor
  · intro n
    refine ⟨2 * n + 11, by omega, ?_⟩
    have h1 : ¬ (2 * n + 11 < 10) := by omega
    have h2 : ¬ ((2 * n + 11) % 2 = 0) := by omega
    simp only [fairSchedule, h1, h2, if_false]
  · intro n
    refine ⟨2 * n + 10, by omega, ?_⟩
    have h1 : ¬ (2 * n + 10 < 10) := by omega
    have h2 : (2 * n + 10) % 2 = 0 := by omega
    simp only [fairSchedule, h1, h2, if_false, if_true]

theorem noStray_fairSchedule : NoStrayInterrupt fairSchedule := by
  intro m hm _
  by_cases h10 : m < 10
  · interval_cases m <;> first
      | rfl
      | (exfalso; revert hm; decide)
  · simp only [fairSchedule, h10, if_false] at hm
    split at hm <;> cases hm

/-- C8 amended at the schedule fairSchedule, whose only interrupt arrives
while sigCh is registered: both calls have returned after ten turns, and the
process then ends with code 0, the log ending with "shutdown" and "Bye!". -/
theorem shutdown_then_bye_witness :
    Fair fairSchedule ∧ NoStrayInterrupt fairSchedule ∧
    (exec fairSchedule 10).recv = some true ∧
    (exec fairSchedule 10).shutdownResult = some none ∧
    (exec fairSchedule 10).serveResult = some ServeError.closed ∧
    ∃ n, 10 ≤ n ∧
      (exec fairSchedule n).log = ["start http listening :18888", "shutdown", "Bye!"] ∧
      (exec fairSchedule n).exit = some 0 :=
  match (shutdown_then_bye fairSchedule).2.2 fair_fairSchedule 10 (by rfl) (by rfl)
      (by rfl) with
  | ⟨n, hn, hlog, hex, _⟩ =>
    ⟨fair_fairSchedule, noStray_fairSchedule, by rfl, by rfl, by rfl, n, hn, hlog,
      hex.elim id (fun hk => absurd noStray_fairSchedule hk.2)⟩

/-- C10, at an interrupt that arrives after signal.Notify and before the
goroutine is in its receive: sigCh has capacity 0, not 1, the interrupt is
discarded and not queued, and the goroutine then blocks in its receive
without a value, Shutdown not called. -/
theorem early_interrupt_is_dropped :
    (run [Event.main, Event.main, Event.interrupt] init).map
        (fun s => (s.sigCh, s.registered, s.interrupts, s.dropped, s.recv)) =
      some (some { cap := 0, buf := 0, closed := false }, true, 1, 1, none) ∧
    (run earlyInterrupt init).map
        (fun s => (s.coord, s.sigCh, s.interrupts, s.dropped, s.recv, s.shutdownCalls)) =
      some (CoordPc.parked, some { cap := 0, buf := 0, closed := false }, 1, 1, none, 0) ∧
    run (earlyInterrupt ++ [Event.coord]) init = none := by
  refine ⟨by rfl, by rfl, by rfl⟩

end Echo
